import Mathlib

/-!
Shallow embedding of the AI-Life-Simulator core (src/agent.py, src/behavior_model.py,
src/simulation.py, src/environment.py) over exact rational arithmetic.
Python floats are modelled as `ℚ`; Python dicts as association lists (or fixed-field
structures with string-keyed getters mirroring the dict literals); a raised exception
is modelled as `Except.error`.
-/

namespace AILife

/-- The action enumeration from agent.py (`class ActionType(Enum)`). -/
inductive ActionType where
  | eat
  | work
  | sleep
  | socialize
  | idle
deriving DecidableEq, Repr, Inhabited

/-- The `.value` string of each ActionType member. -/
def actionValue : ActionType → String
  | .eat => "eat"
  | .work => "work"
  | .sleep => "sleep"
  | .socialize => "socialize"
  | .idle => "idle"

/-- `ActionType(s)`: the enum constructor from a value string; `none` models ValueError. -/
def actionTypeOfString (s : String) : Option ActionType :=
  if s = "eat" then some .eat
  else if s = "work" then some .work
  else if s = "sleep" then some .sleep
  else if s = "socialize" then some .socialize
  else if s = "idle" then some .idle
  else none

/-- `Need` dataclass from agent.py: a bounded scalar with a decay rate. -/
structure Need where
  value : ℚ
  decay_rate : ℚ
  satisfaction_threshold : ℚ := 30
deriving DecidableEq, Repr, Inhabited

/-- `Need.update(dt)`: decay the need over time, floored at 0. -/
def Need.update (n : Need) (dt : ℚ) : Need :=
  { n with value := max 0 (n.value - n.decay_rate * dt) }

/-- `Need.satisfy(amount)`: raise the value, capped at 100. -/
def Need.satisfy (n : Need) (amount : ℚ) : Need :=
  { n with value := min 100 (n.value + amount) }

/-- One call in a sequence of mutations applied to a `Need`. -/
inductive NeedCall where
  | update (dt : ℚ)
  | satisfy (amount : ℚ)

/-- Apply a single `NeedCall`. -/
def Need.applyCall (n : Need) : NeedCall → Need
  | .update dt => n.update dt
  | .satisfy a => n.satisfy a

/-- Apply a finite sequence of `update`/`satisfy` calls, in order. -/
def Need.applyCalls (n : Need) (cs : List NeedCall) : Need :=
  cs.foldl Need.applyCall n

/-- The argument restrictions of the claim: `update` with `dt ≥ 0`, `satisfy` with
`amount ≥ 0`. -/
def NeedCall.valid : NeedCall → Bool
  | .update dt => 0 ≤ dt
  | .satisfy a => 0 ≤ a

/-- `PersonalityTrait` dataclass from agent.py. -/
structure PersonalityTrait where
  discipline : ℚ := 1/2
  sociability : ℚ := 1/2
  ambition : ℚ := 1/2
  creativity : ℚ := 1/2
  openness : ℚ := 1/2
  conscientiousness : ℚ := 1/2
  extraversion : ℚ := 1/2
  agreeableness : ℚ := 1/2
  neuroticism : ℚ := 1/2
deriving DecidableEq, Repr, Inhabited

/-- `Habit` class from agent.py. -/
structure Habit where
  action : ActionType
  strength : ℚ := 1/10
  time_preference : ℚ := 1/2
  success_count : ℕ := 0
  total_attempts : ℕ := 0
deriving DecidableEq, Repr, Inhabited

/-- `Habit.reinforce(success)`: strengthen on success, weaken on failure. -/
def Habit.reinforce (h : Habit) (success : Bool) : Habit :=
  if success then
    { h with total_attempts := h.total_attempts + 1,
             success_count := h.success_count + 1,
             strength := min 1 (h.strength + 1/100) }
  else
    { h with total_attempts := h.total_attempts + 1,
             strength := max 0 (h.strength - 1/200) }

/-- The `self.needs` dict literal from `VirtualHuman.__init__`: exactly the four keys
`hunger`, `energy`, `happiness`, `social_need`. -/
structure NeedsMap where
  hunger : Need
  energy : Need
  happiness : Need
  social_need : Need
deriving DecidableEq, Repr, Inhabited

/-- Dict lookup `self.needs[k]`; keys are fixed by the `__init__` dict literal, any
other key is a `KeyError` (`none`). -/
def NeedsMap.get (n : NeedsMap) (k : String) : Option Need :=
  if k = "hunger" then some n.hunger
  else if k = "energy" then some n.energy
  else if k = "happiness" then some n.happiness
  else if k = "social_need" then some n.social_need
  else none

/-- Write back a value at a dict key (no-op on a key that is absent). -/
def NeedsMap.set (n : NeedsMap) (k : String) (v : Need) : NeedsMap :=
  if k = "hunger" then { n with hunger := v }
  else if k = "energy" then { n with energy := v }
  else if k = "happiness" then { n with happiness := v }
  else if k = "social_need" then { n with social_need := v }
  else n

/-- `self.decision_weights` dict from `VirtualHuman.__init__`. -/
structure DecisionWeights where
  need_urgency : ℚ := 2/5
  habit_strength : ℚ := 1/5
  personality : ℚ := 1/5
  money_factor : ℚ := 1/10
  mood_factor : ℚ := 1/10
deriving DecidableEq, Repr, Inhabited

/-- A value stored in a memory-record dict. -/
inductive MemValue where
  | act (a : ActionType)
  | flag (b : Bool)
  | num (q : ℚ)
  | snapshot (m : List (String × ℚ))
deriving DecidableEq, Repr

/-- A memory record is the Python dict appended by `perform_action`, modelled as an
association list of its literal keys. -/
abbrev MemoryRecord := List (String × MemValue)

/-- Dict access `m[k]` on a memory record: a missing key is a KeyError. -/
def MemoryRecord.getKey (m : MemoryRecord) (k : String) : Except String MemValue :=
  match List.lookup k m with
  | some v => Except.ok v
  | none => Except.error ("KeyError: " ++ k)

/-- The `VirtualHuman` agent state (the fields used by the modelled operations). -/
structure VirtualHuman where
  id : ℕ
  name : String
  needs : NeedsMap
  money : ℚ
  mood : ℚ
  personality : PersonalityTrait
  habits : List (ActionType × Habit)
  current_action : ActionType := .idle
  action_duration : ℚ := 0
  decision_weights : DecisionWeights := {}
  action_rewards : ActionType → ℚ := fun _ => 0
  action_counts : ActionType → ℕ := fun _ => 0
  memory : List MemoryRecord := []
  total_actions : ℕ := 0
  action_history : List ActionType := []

/-- Update the habit stored under an action key, if present (in-place dict mutation). -/
def updateHabit (hs : List (ActionType × Habit)) (a : ActionType) (f : Habit → Habit) :
    List (ActionType × Habit) :=
  hs.map (fun e => if e.1 = a then (e.1, f e.2) else e)

/-- The memory-record dict literal appended at the end of `perform_action`
(agent.py lines 303-312): exactly these eight keys, in this order. -/
def mkMemoryRecord (a : ActionType) (success : Bool) (reward cost now : ℚ)
    (needs : NeedsMap) (money mood : ℚ) : MemoryRecord :=
  [("action", .act a), ("success", .flag success), ("reward", .num reward),
   ("cost", .num cost), ("timestamp", .num now),
   ("needs_state", .snapshot
      [("hunger", needs.hunger.value), ("energy", needs.energy.value),
       ("happiness", needs.happiness.value), ("social_need", needs.social_need.value)]),
   ("money", .num money), ("mood", .num mood)]

/-- The action-specific if/elif chain of `perform_action` (agent.py lines 236-280):
returns the agent with needs/money updated, plus `(success, reward, cost)`. -/
def performActionCore (ag : VirtualHuman) (action : ActionType) (dt : ℚ) :
    VirtualHuman × Bool × ℚ × ℚ :=
  match action with
  | .eat =>
    if ag.needs.hunger.value > 10 ∧ ag.money ≥ 5 then
      let hunger_reduction := min (30 * dt) ag.needs.hunger.value
      let needs1 := { ag.needs with
        hunger := { ag.needs.hunger with value := ag.needs.hunger.value - hunger_reduction },
        happiness := { ag.needs.happiness with
          value := min 100 (ag.needs.happiness.value + 5 * dt) } }
      let cost := 5 * dt
      ({ ag with needs := needs1, money := ag.money - cost }, true, hunger_reduction * (1/10), cost)
    else (ag, false, 0, 0)
  | .sleep =>
    if ag.needs.energy.value < 90 then
      let energy_gain := min (40 * dt) (100 - ag.needs.energy.value)
      let needs1 := { ag.needs with
        energy := { ag.needs.energy with value := ag.needs.energy.value + energy_gain },
        social_need := { ag.needs.social_need with
          value := min 100 (ag.needs.social_need.value + 2 * dt) } }
      ({ ag with needs := needs1 }, true, energy_gain * (1/20), 0)
    else (ag, false, 0, 0)
  | .socialize =>
    if ag.needs.social_need.value > 5 ∧ ag.money ≥ 3 then
      let social_reduction := min (25 * dt) ag.needs.social_need.value
      let needs1 := { ag.needs with
        social_need := { ag.needs.social_need with
          value := ag.needs.social_need.value - social_reduction },
        happiness := { ag.needs.happiness with
          value := min 100 (ag.needs.happiness.value + 8 * dt) } }
      let cost := 3 * dt
      ({ ag with needs := needs1, money := ag.money - cost }, true,
        social_reduction * (8/100) + ag.personality.sociability * (1/10), cost)
    else (ag, false, 0, 0)
  | .work =>
    if ag.needs.energy.value > 20 then
      let money_earned := (10 + ag.personality.ambition * 5) * dt
      let needs1 := { ag.needs with
        energy := { ag.needs.energy with value := max 0 (ag.needs.energy.value - 15 * dt) },
        hunger := { ag.needs.hunger with value := min 100 (ag.needs.hunger.value + 8 * dt) },
        happiness := { ag.needs.happiness with
          value := max 0 (ag.needs.happiness.value - 3 * dt) } }
      ({ ag with needs := needs1, money := ag.money + money_earned }, true,
        money_earned * (2/100) + ag.personality.ambition * (1/10), 0)
    else (ag, false, 0, 0)
  | .idle => (ag, true, 0, 0)

/-- `VirtualHuman.perform_action(action, dt)` (agent.py lines 230-318); `now` models
`time.time()`. Returns the updated agent and the success flag. -/
def VirtualHuman.perform_action (ag : VirtualHuman) (action : ActionType) (dt now : ℚ) :
    VirtualHuman × Bool :=
  let core := performActionCore ag action dt
  let ag1 := core.1
  let success := core.2.1
  let reward := core.2.2.1
  let cost := core.2.2.2
  let mood1 := if success then min 1 (ag1.mood + 2/100) else max 0 (ag1.mood - 5/100)
  let counts1 := fun a => if a = action then ag1.action_counts a + 1 else ag1.action_counts a
  let rewards1 := fun a =>
    if a = action then
      (if success then ag1.action_rewards a + reward else ag1.action_rewards a - 1/10)
    else ag1.action_rewards a
  let weights1 :=
    if success ∧ reward > 1/2 then
      { ag1.decision_weights with
        habit_strength := min (1/2) (ag1.decision_weights.habit_strength + 1/100) }
    else ag1.decision_weights
  let habits1 :=
    if (List.lookup action ag1.habits).isSome then
      updateHabit ag1.habits action (fun h => h.reinforce success)
    else ag1.habits
  let record := mkMemoryRecord action success reward cost now ag1.needs ag1.money mood1
  let mem1 := ag1.memory ++ [record]
  let mem2 := if mem1.length > 100 then mem1.drop 1 else mem1
  ({ ag1 with mood := mood1, action_counts := counts1, action_rewards := rewards1,
              decision_weights := weights1, habits := habits1, memory := mem2 }, success)

/-- Generic dict write for association lists: overwrite an existing key in place,
otherwise append (Python dict assignment semantics, insertion-ordered). -/
def dictSet {κ β : Type} [DecidableEq κ] (l : List (κ × β)) (k : κ) (v : β) :
    List (κ × β) :=
  if (List.lookup k l).isSome then l.map (fun e => if e.1 = k then (e.1, v) else e)
  else l ++ [(k, v)]

/-- Per-action accumulator of `evolve_behavior`: (successes, attempts, satisfaction). -/
abbrev PerfEntry := ℕ × ℕ × ℚ

/-- `VirtualHuman.evolve_behavior()` (agent.py lines 372-402). Each memory record is
read through dict access, so a missing key surfaces as `Except.error` (KeyError),
exactly as in Python. -/
def VirtualHuman.evolve_behavior (ag : VirtualHuman) : Except String VirtualHuman :=
  if ag.memory.length < 10 then Except.ok ag
  else do
    let recent := ag.memory.drop (ag.memory.length - 20)
    let perf ← recent.foldlM (fun (acc : List (ActionType × PerfEntry)) m => do
      let av ← m.getKey "action"
      let a ← match av with
        | .act a => Except.ok a
        | _ => Except.error "TypeError"
      let cur : PerfEntry := (List.lookup a acc).getD (0, 0, 0)
      let sv ← m.getKey "success"
      let s ← match sv with
        | .flag b => Except.ok b
        | _ => Except.error "TypeError"
      let gv ← m.getKey "satisfaction_gain"
      let g ← match gv with
        | .num q => Except.ok q
        | _ => Except.error "TypeError"
      let cur1 : PerfEntry :=
        ((if s then cur.1 + 1 else cur.1), cur.2.1 + 1, cur.2.2 + g)
      Except.ok (dictSet acc a cur1)) []
    let habits1 := perf.foldl (fun hs pe =>
      let a := pe.1
      let successes := pe.2.1
      let attempts := pe.2.2.1
      let satisfaction := pe.2.2.2
      if attempts > 0 then
        let success_rate : ℚ := (successes : ℚ) / (attempts : ℚ)
        let avg_satisfaction := satisfaction / (attempts : ℚ)
        if (List.lookup a hs).isSome then
          if success_rate > 7/10 ∧ avg_satisfaction > 1/10 then
            updateHabit hs a (fun h => { h with strength := min 1 (h.strength + 2/100) })
          else if success_rate < 3/10 ∨ avg_satisfaction < 5/100 then
            updateHabit hs a (fun h => { h with strength := max 0 (h.strength - 1/100) })
          else hs
        else hs
      else hs) ag.habits
    Except.ok { ag with habits := habits1 }

/-! ## Pattern miner (src/behavior_model.py) -/

/-- `BehaviorPattern` class from behavior_model.py. Condition values are the floats
produced by discovery/mutation/persistence, modelled as `ℚ`. `last_used` is the
recency counter. -/
structure BehaviorPattern where
  pattern_id : String
  conditions : List (String × ℚ)
  actions : List ActionType
  success_rate : ℚ := 1/2
  usage_count : ℕ := 0
  last_used : ℤ := 0
  effectiveness_history : List Bool := []
deriving DecidableEq, Repr, Inhabited

/-- `BehaviorPattern.matches_conditions(agent_state, threshold=0.8)`
(behavior_model.py lines 21-37): the fraction of conditions present in
`agent_state` whose values are within absolute tolerance 0.2 must reach the
threshold; false when no condition key is present. -/
def BehaviorPattern.matches_conditions (p : BehaviorPattern)
    (agent_state : List (String × ℚ)) (threshold : ℚ := 4/5) : Bool :=
  let mt := p.conditions.foldl (fun (mt : ℕ × ℕ) ce =>
    match List.lookup ce.1 agent_state with
    | none => mt
    | some cur =>
      ((if |cur - ce.2| < 1/5 then mt.1 + 1 else mt.1), mt.2 + 1)) (0, 0)
  if mt.2 > 0 then (mt.1 : ℚ) / (mt.2 : ℚ) ≥ threshold else false

/-- `BehaviorPattern.update_effectiveness(success)` (behavior_model.py lines 39-50). -/
def BehaviorPattern.update_effectiveness (p : BehaviorPattern) (success : Bool) :
    BehaviorPattern :=
  let history1 := p.effectiveness_history ++ [success]
  let history2 := if history1.length > 20 then history1.drop 1 else history1
  let rate := if history2 ≠ [] then
    ((history2.filter id).length : ℚ) / (history2.length : ℚ)
  else p.success_rate
  { p with usage_count := p.usage_count + 1,
           effectiveness_history := history2,
           success_rate := rate }

/-- The miner's pattern store: `self.patterns`, a dict pattern_id → BehaviorPattern. -/
abbrev PatternStore := List (String × BehaviorPattern)

/-- The condition dict built from an agent inside `suggest_action` /
`update_pattern_effectiveness` (behavior_model.py lines 187-193); `tod` models
`agent.get_time_of_day()`. -/
def agentStateDict (ag : VirtualHuman) (tod : ℚ) : List (String × ℚ) :=
  [("hunger", ag.needs.hunger.value), ("energy", ag.needs.energy.value),
   ("social_need", ag.needs.social_need.value), ("happiness", ag.needs.happiness.value),
   ("time_of_day", tod)]

/-- Python `max(list, key=f)`: the first element attaining the maximal key. -/
def pyMaxBy {α : Type} (f : α → ℚ) : α → List α → α
  | best, [] => best
  | best, x :: xs => pyMaxBy f (if f x > f best then x else best) xs

/-- `GenerativeBehaviorModel.suggest_action(agent)` (behavior_model.py lines 181-215).
`explorationRoll` models the `random.random()` draw compared against
`exploration_rate = 0.2`; `min_pattern_usage = 5`. Returns the suggestion and the
store after the in-place `best_pattern.last_used = 0` write. -/
def suggest_action (store : PatternStore) (ag : VirtualHuman)
    (explorationRoll tod : ℚ) : Option ActionType × PatternStore :=
  if explorationRoll < 1/5 then (none, store)
  else
    let agent_state := agentStateDict ag tod
    let matching := store.filter (fun e =>
      e.2.matches_conditions agent_state &&
      decide (e.2.usage_count ≥ 5) && decide (e.2.success_rate > 3/5))
    match matching with
    | [] => (none, store)
    | m :: ms =>
      let best := pyMaxBy
        (fun e => e.2.success_rate * (1 + (1/10) * (100 - e.2.last_used))) m ms
      match best.2.actions with
      | [] => (none, store)
      | a :: _ =>
        (some a,
         store.map (fun e =>
           if e.1 = best.1 then (e.1, { e.2 with last_used := 0 }) else e))

/-- `GenerativeBehaviorModel.update_pattern_effectiveness(agent, suggested_action,
success)` (behavior_model.py lines 217-233): updates the first matching pattern whose
first action is the suggested one. -/
def update_pattern_effectiveness (store : PatternStore) (ag : VirtualHuman)
    (suggested : ActionType) (success : Bool) (tod : ℚ) : PatternStore :=
  let agent_state := agentStateDict ag tod
  let hit := store.find? (fun e =>
    e.2.matches_conditions agent_state &&
    decide (e.2.actions.head? = some suggested))
  match hit with
  | none => store
  | some e =>
    store.map (fun f =>
      if f.1 = e.1 then (f.1, f.2.update_effectiveness success) else f)

/-- The pruning predicate of `evolve_patterns` (behavior_model.py lines 243-250),
evaluated on the already-aged pattern: ineffective
(`usage_count ≥ 2*min_pattern_usage = 10` and `success_rate < 0.3`) or stale
(`last_used > 100` and `usage_count < min_pattern_usage = 5`). -/
def removalCond (p : BehaviorPattern) : Bool :=
  (decide (p.usage_count ≥ 10) && decide (p.success_rate < 3/10)) ||
  (decide (p.last_used > 100) && decide (p.usage_count < 5))

/-- Swap the entries at two indices of a list (`random.sample` guarantees valid
distinct indices; out-of-range indices leave the list unchanged). -/
def swapAt {α : Type} (l : List α) (i j : ℕ) : List α :=
  match l.get? i, l.get? j with
  | some a, some b => (l.set i b).set j a
  | _, _ => l

/-- `GenerativeBehaviorModel._create_pattern_mutation(original_pattern)`
(behavior_model.py lines 268-296), with the random draws passed in: `delta k` is the
`uniform(-0.1, 0.1)` perturbation for condition key `k`, `swapRoll` the
`random.random()` for the 30% swap decision, `ij` the sampled index pair. `counter`
is the current `pattern_counter`. -/
def create_pattern_mutation (counter : ℕ) (orig : BehaviorPattern)
    (delta : String → ℚ) (swapRoll : ℚ) (ij : ℕ × ℕ) : BehaviorPattern :=
  let new_conditions := orig.conditions.map (fun kv =>
    (kv.1, max 0 (min 1 (kv.2 + delta kv.1))))
  let new_actions :=
    if orig.actions.length > 1 ∧ swapRoll < 3/10 then swapAt orig.actions ij.1 ij.2
    else orig.actions
  { pattern_id := "mutation_" ++ toString counter ++ "_" ++ orig.pattern_id,
    conditions := new_conditions,
    actions := new_actions,
    success_rate := orig.success_rate * (9/10),
    usage_count := 0 }

/-- One candidate step of `_mutate_successful_patterns`: with probability 10%
(`mroll` at the candidate index), insert the mutated pattern and advance the
pattern counter. -/
def mutationStep (mroll : ℕ → ℚ) (mdelta : ℕ → String → ℚ) (mswap : ℕ → ℚ)
    (mij : ℕ → ℕ × ℕ) (acc : PatternStore × ℕ) (ce : ℕ × (String × BehaviorPattern)) :
    PatternStore × ℕ :=
  if mroll ce.1 < 1/10 then
    let p := create_pattern_mutation acc.2 ce.2.2 (mdelta ce.1) (mswap ce.1) (mij ce.1)
    (dictSet acc.1 p.pattern_id p, acc.2 + 1)
  else acc

/-- `GenerativeBehaviorModel.evolve_patterns()` (behavior_model.py lines 235-257):
ages every pattern, prunes by `removalCond`, then
`_mutate_successful_patterns` (lines 259-266): among the up-to-3 first patterns with
`success_rate > 0.8` and `usage_count ≥ 5`, each mutates with probability 10%
(`mroll`); the mutation's random draws come from `mdelta`/`mswap`/`mij`, indexed by
candidate position. Returns the new store and pattern counter. -/
def evolve_patterns (store : PatternStore) (counter : ℕ)
    (mroll : ℕ → ℚ) (mdelta : ℕ → String → ℚ) (mswap : ℕ → ℚ) (mij : ℕ → ℕ × ℕ) :
    PatternStore × ℕ :=
  let aged : PatternStore :=
    store.map (fun e => (e.1, { e.2 with last_used := e.2.last_used + 1 }))
  let kept := aged.filter (fun e => !(removalCond e.2))
  let successful := kept.filter (fun e =>
    decide (e.2.success_rate > 4/5) && decide (e.2.usage_count ≥ 5))
  let cands := successful.take 3
  cands.enum.foldl (mutationStep mroll mdelta mswap mij) (kept, counter)

/-! ## Pattern persistence (save_patterns / load_patterns) -/

/-- One record of the persisted pattern file (behavior_model.py lines 320-326).
`effectiveness_history` is read back with `data.get(..., [])`, so it is optional. -/
structure SavedPattern where
  conditions : List (String × ℚ)
  actions : List String
  success_rate : ℚ
  usage_count : ℕ
  effectiveness_history : Option (List Bool)
deriving DecidableEq, Repr

/-- A successfully parsed pattern file: dict pattern_id → record. -/
abbrev PatternFileData := List (String × SavedPattern)

/-- What `open` + `json.load` can yield for the input file. -/
inductive FileRead where
  | missing
  | corrupt
  | valid (data : PatternFileData)

/-- `GenerativeBehaviorModel.save_patterns` (behavior_model.py lines 316-329): the
serialized form of the store. -/
def save_patterns (store : PatternStore) : PatternFileData :=
  store.map (fun e =>
    (e.1, { conditions := e.2.conditions,
            actions := e.2.actions.map actionValue,
            success_rate := e.2.success_rate,
            usage_count := e.2.usage_count,
            effectiveness_history := some e.2.effectiveness_history }))

/-- `[ActionType(s) for s in strs]`: `none` result of `actionTypeOfString` is a
ValueError. -/
def toActions : List String → Except String (List ActionType)
  | [] => Except.ok []
  | s :: rest =>
    match actionTypeOfString s with
    | some a =>
      match toActions rest with
      | Except.ok tail => Except.ok (a :: tail)
      | Except.error e => Except.error e
    | none => Except.error "ValueError"

/-- `GenerativeBehaviorModel.load_patterns(filename)` (behavior_model.py lines
331-350): only `FileNotFoundError` is caught (missing file leaves the store as it
is); a corrupt file raises `json.JSONDecodeError`, which propagates. -/
def load_patterns (file : FileRead) (store : PatternStore) :
    Except String PatternStore :=
  match file with
  | .missing => Except.ok store
  | .corrupt => Except.error "json.JSONDecodeError"
  | .valid data =>
    data.foldlM (fun st e => do
      let acts ← toActions e.2.actions
      let p : BehaviorPattern :=
        { pattern_id := e.1,
          conditions := e.2.conditions,
          actions := acts,
          success_rate := e.2.success_rate,
          usage_count := e.2.usage_count,
          last_used := 0,
          effectiveness_history := e.2.effectiveness_history.getD [] }
      Except.ok (dictSet st e.1 p)) store

/-- The pattern produced by reloading a saved pattern under id `k`: same
conditions, actions, success rate and usage count; recency counter restarts at 0. -/
def reloadPattern (k : String) (p : BehaviorPattern) : BehaviorPattern :=
  { pattern_id := k,
    conditions := p.conditions,
    actions := p.actions,
    success_rate := p.success_rate,
    usage_count := p.usage_count,
    last_used := 0,
    effectiveness_history := p.effectiveness_history }

/-- The store entry produced by a save/reload round trip. -/
def reloadEntry (e : String × BehaviorPattern) : String × BehaviorPattern :=
  (e.1, reloadPattern e.1 e.2)

/-- The frame relation of `suggest_action` between a store entry before and after
the call: identical id, conditions, actions, success rate, usage count and
effectiveness history; the recency counter is either untouched or reset to 0. -/
def frameRel (e e' : String × BehaviorPattern) : Prop :=
  e'.1 = e.1 ∧ e'.2.conditions = e.2.conditions ∧ e'.2.actions = e.2.actions ∧
  e'.2.success_rate = e.2.success_rate ∧ e'.2.usage_count = e.2.usage_count ∧
  e'.2.effectiveness_history = e.2.effectiveness_history ∧
  (e'.2.last_used = e.2.last_used ∨ e'.2.last_used = 0)

/-! ## Orchestrator phases (src/simulation.py) and environment pieces used by them -/

/-- The slice of `Location` used by `process_social_interactions`: its name and the
ordered occupant list of agent ids. -/
structure LocationOcc where
  name : String
  current_occupants : List ℕ
deriving DecidableEq, Repr

/-- The social network: dict agent_id → (dict agent_id → strength). -/
abbrev SocialNetwork := List (ℕ × List (ℕ × ℚ))

/-- `SimulationEnvironment.create_social_connection(agent1_id, agent2_id, strength)`
(environment.py lines 242-256), without the global interaction counter. -/
def create_social_connection (net : SocialNetwork) (i j : ℕ) (strength : ℚ) :
    SocialNetwork :=
  let net1 : SocialNetwork :=
    if (List.lookup i net).isSome then net else net ++ [(i, [])]
  let net2 : SocialNetwork :=
    if (List.lookup j net1).isSome then net1 else net1 ++ [(j, [])]
  let cur1 := (List.lookup j ((List.lookup i net2).getD [])).getD 0
  let cur2 := (List.lookup i ((List.lookup j net2).getD [])).getD 0
  let net3 := dictSet net2 i (dictSet ((List.lookup i net2).getD []) j (min 1 (cur1 + strength)))
  dictSet net3 j (dictSet ((List.lookup j net3).getD []) i (min 1 (cur2 + strength)))

/-- The payload of a `social_interaction` event. -/
structure SocialEvent where
  agent1 : String
  agent2 : String
  location : String
  time : ℚ
deriving DecidableEq, Repr

/-- The state threaded through `process_social_interactions`. `rollIdx` indexes the
stream of `random.random()` draws. -/
structure SocialPhase where
  agents : List VirtualHuman
  social_network : SocialNetwork
  total_interactions : ℕ
  social_interactions : ℕ
  total_time : ℚ
  events : List SocialEvent
  rollIdx : ℕ

/-- The ordered pairs `(occupants[i], occupants[j])` with `i < j` visited by the
nested loops of `process_social_interactions`. -/
def orderedPairs : List ℕ → List (ℕ × ℕ)
  | [] => []
  | x :: xs => xs.map (fun y => (x, y)) ++ orderedPairs xs

/-- The body of `process_social_interactions` for one pair of co-located agents
(simulation.py lines 149-180). List indexing out of range is an IndexError. -/
def processPair (rolls : ℕ → ℚ) (st : SocialPhase) (loc : LocationOcc)
    (pair : ℕ × ℕ) : Except String SocialPhase := do
  let agent1 ← match st.agents.get? pair.1 with
    | some a => Except.ok a
    | none => Except.error "IndexError"
  let agent2 ← match st.agents.get? pair.2 with
    | some a => Except.ok a
    | none => Except.error "IndexError"
  if agent1.current_action = ActionType.socialize ∨
     agent2.current_action = ActionType.socialize then
    let interaction_prob :=
      ((agent1.personality.extraversion + agent2.personality.extraversion) / 2) *
      ((agent1.personality.agreeableness + agent2.personality.agreeableness) / 2)
    let roll := rolls st.rollIdx
    let st := { st with rollIdx := st.rollIdx + 1 }
    if roll < interaction_prob * (3/10) then
      let net1 := create_social_connection st.social_network pair.1 pair.2 (1/20)
      let st := { st with social_network := net1,
                          total_interactions := st.total_interactions + 1 }
      -- agent1.needs['social'] -- the needs dict has no key "social"
      let n1 ← match agent1.needs.get "social" with
        | some n => Except.ok n
        | none => Except.error "KeyError: social"
      let ag1 := { agent1 with needs := agent1.needs.set "social" (n1.satisfy (1/10)) }
      let n2 ← match agent2.needs.get "social" with
        | some n => Except.ok n
        | none => Except.error "KeyError: social"
      let ag2 := { agent2 with needs := agent2.needs.set "social" (n2.satisfy (1/10)) }
      let agents1 := (st.agents.set pair.1 ag1).set pair.2 ag2
      Except.ok { st with
        agents := agents1,
        social_interactions := st.social_interactions + 1,
        events := st.events ++
          [{ agent1 := ag1.name, agent2 := ag2.name, location := loc.name,
             time := st.total_time }] }
    else Except.ok st
  else Except.ok st

/-- `SimulationEngine.process_social_interactions()` (simulation.py lines 144-180):
for each location with more than one occupant, visit each ordered occupant pair. -/
def process_social_interactions (locations : List LocationOcc) (rolls : ℕ → ℚ)
    (st : SocialPhase) : Except String SocialPhase :=
  locations.foldlM (fun st loc =>
    if loc.current_occupants.length > 1 then
      (orderedPairs loc.current_occupants).foldlM
        (fun st pair => processPair rolls st loc pair) st
    else Except.ok st) st

/-- The attribute and method names defined on `SimulationEngine` (simulation.py):
the instance attributes assigned in `__init__` plus the methods of the class.
Note that `perform_action` is not among them. -/
def simulationEngineMembers : List String :=
  ["num_agents", "world_size", "environment", "behavior_model", "agents", "metrics",
   "running", "paused", "simulation_speed", "time_step", "real_time_factor", "stats",
   "step_start_time", "event_callbacks", "log_data", "log_interval", "last_log_time",
   "_create_agents", "add_event_callback", "trigger_event", "update_agent_locations",
   "process_social_interactions", "apply_behavior_model_suggestions",
   "update_simulation_statistics", "log_simulation_data", "step", "run", "pause",
   "resume", "stop", "set_speed", "get_agent_by_id", "get_agent_by_name",
   "get_simulation_state", "save_log_data", "load_log_data"]

/-- The payload of an `agent_action` event emitted by the suggestion phase. -/
structure AgentActionEvent where
  agent : String
  action : String
  ai_suggested : Bool
  success : Bool
  time : ℚ
deriving DecidableEq, Repr

/-- The engine state threaded through `apply_behavior_model_suggestions`. -/
structure SuggestionPhase where
  agents : List VirtualHuman
  patterns : PatternStore
  time_step : ℚ
  total_time : ℚ
  events : List AgentActionEvent

/-- `SimulationEngine.apply_behavior_model_suggestions()` (simulation.py lines
182-214). For each agent, query `suggest_action`; on a non-empty suggestion the
source executes `success = self.perform_action(suggested_action, self.time_step)`
on the engine object, whose class defines no `perform_action` attribute, so the
attribute lookup raises AttributeError. `rolls i`/`tods i` are the exploration draw
and time-of-day for agent `i`; `durs i` the `random.uniform(1.0, 3.0)` duration. -/
def apply_behavior_model_suggestions (st : SuggestionPhase)
    (rolls : ℕ → ℚ) (tods : ℕ → ℚ) (durs : ℕ → ℚ) : Except String SuggestionPhase :=
  (List.range st.agents.length).foldlM (fun st i => do
    let ag ← match st.agents.get? i with
      | some a => Except.ok a
      | none => Except.error "IndexError"
    let sugg := suggest_action st.patterns ag (rolls i) (tods i)
    let st := { st with patterns := sugg.2 }
    match sugg.1 with
    | none => Except.ok st
    | some suggested =>
      let ag1 := { ag with current_action := suggested, action_duration := durs i }
      let st := { st with agents := st.agents.set i ag1 }
      if simulationEngineMembers.contains "perform_action" then
        -- unreachable: SimulationEngine defines no perform_action member
        Except.error "unreachable"
      else
        Except.error "AttributeError: SimulationEngine object has no attribute perform_action") st

/-! ## Concrete instances used by witnesses and counterexamples -/

/-- A concrete needs map with all four keys populated. -/
def cNeeds : NeedsMap :=
  { hunger := { value := 50, decay_rate := 2 },
    energy := { value := 80, decay_rate := 3/2 },
    happiness := { value := 60, decay_rate := 4/5 },
    social_need := { value := 40, decay_rate := 1 } }

/-- The habit dict created in `VirtualHuman.__init__`: four action keys. -/
def cHabits : List (ActionType × Habit) :=
  [(.eat, { action := .eat }), (.work, { action := .work }),
   (.sleep, { action := .sleep }), (.socialize, { action := .socialize })]

/-- A concrete agent with hunger 50 and money 10. -/
def cAgent : VirtualHuman :=
  { id := 0, name := "Alex_1", needs := cNeeds, money := 10, mood := 1/2,
    personality := {}, habits := cHabits }

/-- The same agent with money 5 (still satisfying the EAT precondition money ≥ 5). -/
def cAgentLowMoney : VirtualHuman := { cAgent with money := 5 }

/-- A memory record in exactly the format `perform_action` writes. -/
def cRecord : MemoryRecord := mkMemoryRecord .eat true 3 5 0 cNeeds 5 (1/2)

/-- An agent holding 10 program-format memory records. -/
def cAgentMem : VirtualHuman := { cAgent with memory := List.replicate 10 cRecord }

/-- A fully sociable agent currently performing SOCIALIZE. -/
def cAgentSoc : VirtualHuman :=
  { cAgent with current_action := .socialize,
                personality := { extraversion := 1, agreeableness := 1 } }

/-- A second fully sociable agent (id 1). -/
def cAgentSoc2 : VirtualHuman :=
  { cAgent with id := 1, name := "Sam_2",
                personality := { extraversion := 1, agreeableness := 1 } }

/-- A location occupied by agents 0 and 1. -/
def cLoc : LocationOcc := { name := "Community Center", current_occupants := [0, 1] }

/-- The social-interaction phase state for the two co-located agents. -/
def cSocialPhase : SocialPhase :=
  { agents := [cAgentSoc, cAgentSoc2], social_network := [], total_interactions := 0,
    social_interactions := 0, total_time := 0, events := [], rollIdx := 0 }

/-- An established, successful pattern matching `cAgent`'s state. -/
def cPattern : BehaviorPattern :=
  { pattern_id := "pattern_0_0", conditions := [("hunger", 50)], actions := [.eat],
    success_rate := 7/10, usage_count := 5 }

/-- A one-pattern store. -/
def cStore : PatternStore := [("pattern_0_0", cPattern)]

/-- The suggestion-phase state with one agent and an established matching pattern. -/
def cSuggPhase : SuggestionPhase :=
  { agents := [cAgent], patterns := cStore, time_step := 1/10,
    total_time := 0, events := [] }

/-- The ineffectiveness-pruning scenario pattern: usage 10, success rate 0.1. -/
def cPrunePattern : BehaviorPattern :=
  { pattern_id := "p1", conditions := [], actions := [.eat],
    success_rate := 1/10, usage_count := 10 }

/-- A store holding only the prune-scenario pattern. -/
def cPruneStore : PatternStore := [("p1", cPrunePattern)]

/-! ## Shared association-list lemmas -/

lemma lookup_eq_none_of_not_mem_keys {β : Type} (l : List (String × β)) (k : String)
    (h : k ∉ l.map Prod.fst) : List.lookup k l = none := by
  induction l with
  | nil => rfl
  | cons e l ih =>
    simp only [List.map_cons, List.mem_cons, not_or] at h
    have hb : (k == e.1) = false := beq_eq_false_iff_ne.mpr h.1
    simp [List.lookup, hb, ih h.2]

lemma lookup_map_val {β : Type} (l : List (String × β)) (g : β → β) (k : String) :
    List.lookup k (l.map (fun e => (e.1, g e.2))) = (List.lookup k l).map g := by
  induction l with
  | nil => rfl
  | cons e l ih =>
    rcases h : (k == e.1) with _ | _ <;> simp [List.lookup, h, ih]

lemma lookup_filter_of_nodup {β : Type} (l : List (String × β))
    (pred : String × β → Bool) (k : String) (hnd : (l.map Prod.fst).Nodup) :
    List.lookup k (l.filter pred) =
      match List.lookup k l with
      | some v => if pred (k, v) then some v else none
      | none => none := by
  induction l with
  | nil => rfl
  | cons e l ih =>
    simp only [List.map_cons, List.nodup_cons] at hnd
    rcases hk : (k == e.1) with _ | _
    · have hne : k ≠ e.1 := by simpa using hk
      rcases hp : pred e with _ | _ <;>
        simp [List.filter, hp, List.lookup, hk, ih hnd.2]
    · have hkeq : k = e.1 := by simpa using hk
      have hnotin : k ∉ l.map Prod.fst := hkeq ▸ hnd.1
      rcases hp : pred e with _ | _
      · have : List.lookup k (l.filter pred) = none := by
          apply lookup_eq_none_of_not_mem_keys
          intro hmem
          exact hnotin (by
            rcases List.mem_map.mp hmem with ⟨x, hx, hx1⟩
            exact List.mem_map.mpr ⟨x, (List.mem_filter.mp hx).1, hx1⟩)
        have hpe : pred (k, e.2) = false := by
          have : (k, e.2) = e := by rw [hkeq]
          rw [this, hp]
        simp [List.filter, hp, List.lookup, hk, this, hpe]
      · have hpe : pred (k, e.2) = true := by
          have : (k, e.2) = e := by rw [hkeq]
          rw [this, hp]
        simp [List.filter, hp, List.lookup, hk, hpe]

lemma lookup_append_or {β : Type} (l1 l2 : List (String × β)) (k : String) :
    List.lookup k (l1 ++ l2) = (List.lookup k l1).or (List.lookup k l2) := by
  induction l1 with
  | nil => simp
  | cons e l ih =>
    rcases h : (k == e.1) with _ | _ <;> simp [List.lookup, h, ih]

lemma lookup_map_replace_ne {β : Type} (l : List (String × β)) (k k2 : String) (v : β)
    (h : k ≠ k2) :
    List.lookup k (l.map (fun e => if e.1 = k2 then (e.1, v) else e)) =
      List.lookup k l := by
  induction l with
  | nil => rfl
  | cons e l ih =>
    simp only [List.map_cons]
    by_cases h2 : e.1 = k2
    · rw [if_pos h2]
      have hne : (k == e.1) = false :=
        beq_eq_false_iff_ne.mpr (fun hh => h (hh.trans h2))
      simp [List.lookup, hne, h2 ▸ hne, ih]
    · rw [if_neg h2]
      rcases he : (k == e.1) with _ | _ <;> simp [List.lookup, he, ih]

lemma lookup_dictSet_ne {β : Type} (l : List (String × β)) (k k2 : String) (v : β)
    (h : k ≠ k2) : List.lookup k (dictSet l k2 v) = List.lookup k l := by
  unfold dictSet
  split
  · exact lookup_map_replace_ne l k k2 v h
  · rw [lookup_append_or]
    have : List.lookup k [(k2, v)] = none := by
      simp [List.lookup, beq_eq_false_iff_ne.mpr h]
    rw [this, Option.or_none]

lemma needsMap_get_social (n : NeedsMap) : n.get "social" = none := by
  simp [NeedsMap.get]

/-! ## Claim theorems -/

/-- C4: for every NeedState whose value starts in [0,100] (with its nonnegative
decay rate, as every need constructed by the program has), after any finite
sequence of `update(dt)` calls with `dt ≥ 0` and `satisfy(amount)` calls with
`amount ≥ 0`, the value remains in [0,100]. -/
theorem need_value_bounded_by_update_satisfy (n : Need) (cs : List NeedCall)
    (hd : 0 ≤ n.decay_rate) (h0 : 0 ≤ n.value) (h1 : n.value ≤ 100)
    (hc : ∀ c ∈ cs, c.valid = true) :
    0 ≤ (n.applyCalls cs).value ∧ (n.applyCalls cs).value ≤ 100 := by
  induction cs generalizing n with
  | nil => exact ⟨h0, h1⟩
  | cons c cs ih =>
    have hcv := hc c (List.mem_cons_self c cs)
    have hrest : ∀ x ∈ cs, x.valid = true := fun x hx => hc x (List.mem_cons_of_mem c hx)
    have hdr : (n.applyCall c).decay_rate = n.decay_rate := by
      cases c <;> rfl
    have hstep : 0 ≤ (n.applyCall c).value ∧ (n.applyCall c).value ≤ 100 := by
      cases c with
      | update dt =>
        have hdt : (0:ℚ) ≤ dt := by
          simpa [NeedCall.valid, decide_eq_true_eq] using hcv
        simp only [Need.applyCall, Need.update]
        refine ⟨le_max_left 0 _, max_le (by norm_num) ?_⟩
        nlinarith [mul_nonneg hd hdt]
      | satisfy a =>
        have ha : (0:ℚ) ≤ a := by
          simpa [NeedCall.valid, decide_eq_true_eq] using hcv
        simp only [Need.applyCall, Need.satisfy]
        exact ⟨le_min (by norm_num) (by linarith), min_le_left _ _⟩
    have := ih (n.applyCall c) (by rw [hdr]; exact hd) hstep.1 hstep.2 hrest
    simpa [Need.applyCalls] using this

/-- Witness for C4 at a concrete need and call sequence. -/
theorem need_value_bounded_witness :
    0 ≤ (Need.applyCalls { value := 50, decay_rate := 2 }
        [NeedCall.update 1, NeedCall.satisfy 30]).value ∧
    (Need.applyCalls { value := 50, decay_rate := 2 }
        [NeedCall.update 1, NeedCall.satisfy 30]).value ≤ 100 :=
  need_value_bounded_by_update_satisfy _ _ (by norm_num) (by norm_num) (by norm_num)
    (by decide)

/-- C5: performAction(EAT, dt=1.0) on an agent with hunger = 50 and money = 10
(other state arbitrary) reduces hunger to 20, deducts 5 money (to 5), and
returns success = true. -/
theorem perform_eat_scenario (ag : VirtualHuman) (now : ℚ)
    (hh : ag.needs.hunger.value = 50) (hm : ag.money = 10) :
    (ag.perform_action .eat 1 now).1.needs.hunger.value = 20 ∧
    (ag.perform_action .eat 1 now).1.money = 5 ∧
    (ag.perform_action .eat 1 now).2 = true := by
  have hcond : ag.needs.hunger.value > 10 ∧ ag.money ≥ 5 := by rw [hh, hm]; norm_num
  simp only [VirtualHuman.perform_action, performActionCore, if_pos hcond, hh, hm]
  norm_num [min_def]

/-- Witness for C5 at the concrete agent `cAgent`. -/
theorem perform_eat_scenario_witness :
    cAgent.needs.hunger.value = 50 ∧ cAgent.money = 10 ∧
    ((cAgent.perform_action .eat 1 0).1.needs.hunger.value = 20 ∧
     (cAgent.perform_action .eat 1 0).1.money = 5 ∧
     (cAgent.perform_action .eat 1 0).2 = true) :=
  ⟨rfl, rfl, perform_eat_scenario cAgent 0 rfl rfl⟩

/-- C7 counterexample: the claim fails as stated for dt > 1. The agent
`cAgentLowMoney` has money = 5 ≥ 0 and passes the EAT feasibility precondition
(hunger 50 > 10, money 5 ≥ 5), yet performAction(EAT, dt=2) deducts cost
5·2 = 10 and leaves money = −5 < 0. -/
theorem perform_action_money_counterexample :
    0 ≤ cAgentLowMoney.money ∧ (0:ℚ) < 2 ∧
    (cAgentLowMoney.perform_action .eat 2 0).1.money < 0 := by
  refine ⟨by norm_num [cAgentLowMoney, cAgent], by norm_num, ?_⟩
  norm_num [VirtualHuman.perform_action, performActionCore, cAgentLowMoney, cAgent,
    cNeeds]

/-- C7 amended: for every agent state with money ≥ 0 whose ambition trait is in
its documented nonnegative range, and every action, performAction with a time
step 0 < dt ≤ 1 (the engine always uses dt = 0.1) preserves money ≥ 0. -/
theorem perform_action_money_nonneg (ag : VirtualHuman) (action : ActionType)
    (dt now : ℚ) (hm : 0 ≤ ag.money) (hamb : 0 ≤ ag.personality.ambition)
    (hdt0 : 0 < dt) (hdt1 : dt ≤ 1) :
    0 ≤ (ag.perform_action action dt now).1.money := by
  have hfin : (ag.perform_action action dt now).1.money =
      (performActionCore ag action dt).1.money := rfl
  rw [hfin]
  cases action with
  | eat =>
    simp only [performActionCore]
    split_ifs with h
    · show 0 ≤ ag.money - 5 * dt
      have h5 : ag.money ≥ 5 := h.2
      nlinarith
    · exact hm
  | sleep =>
    simp only [performActionCore]
    split_ifs with h <;> exact hm
  | socialize =>
    simp only [performActionCore]
    split_ifs with h
    · show 0 ≤ ag.money - 3 * dt
      have h3 : ag.money ≥ 3 := h.2
      nlinarith
    · exact hm
  | work =>
    simp only [performActionCore]
    split_ifs with h
    · show 0 ≤ ag.money + (10 + ag.personality.ambition * 5) * dt
      have : 0 ≤ (10 + ag.personality.ambition * 5) * dt :=
        mul_nonneg (by linarith) hdt0.le
      linarith
    · exact hm
  | idle => exact hm

/-- Witness for the amended C7 at the concrete agent `cAgent` with dt = 1. -/
theorem perform_action_money_nonneg_witness :
    0 ≤ cAgent.money ∧ 0 ≤ cAgent.personality.ambition ∧ (0:ℚ) < 1 ∧ (1:ℚ) ≤ 1 ∧
    0 ≤ (cAgent.perform_action .eat 1 0).1.money :=
  ⟨by norm_num [cAgent], by norm_num [cAgent], by norm_num, le_refl 1,
   perform_action_money_nonneg cAgent .eat 1 0 (by norm_num [cAgent])
     (by norm_num [cAgent]) (by norm_num) (le_refl 1)⟩

/-- C6 counterexample: loading a corrupt (non-JSON-parsable) pattern file does not
yield an empty store without error — the `json.JSONDecodeError` propagates, since
`load_patterns` catches only `FileNotFoundError`. -/
theorem load_patterns_corrupt_counterexample :
    load_patterns FileRead.corrupt [] = Except.error "json.JSONDecodeError" := rfl

/-- C6 amended: loading a missing pattern file leaves the (empty) store unchanged
and raises no error; loading a corrupt file raises the JSON parse error, because
only `FileNotFoundError` is handled. -/
theorem load_patterns_missing_vs_corrupt (store : PatternStore) :
    load_patterns FileRead.missing store = Except.ok store ∧
    load_patterns FileRead.corrupt store = Except.error "json.JSONDecodeError" :=
  ⟨rfl, rfl⟩

/-- C3 (code bug): on an agent holding 10 memory records in exactly the format
`perform_action` writes (keys action/success/reward/cost/timestamp/needs_state/
money/mood), `evolve_behavior` raises `KeyError: satisfaction_gain` when
aggregating the first record, because it reads the key `satisfaction_gain`,
which `perform_action` never stores. With fewer than 10 records it is a no-op;
with 10 or more it never reaches the habit adjustment. -/
theorem evolve_behavior_keyerror :
    cAgentMem.evolve_behavior = Except.error "KeyError: satisfaction_gain" := rfl

/-- C1 (code bug): two co-located fully sociable agents, one of them in SOCIALIZE,
with an interaction roll of 0 (which succeeds, since 0 < 1·0.3): the
social-interaction phase strengthens the social edge but then raises
`KeyError: social`, because it reads `needs["social"]` while the agent needs
dict keys are hunger/energy/happiness/social_need. -/
theorem process_social_interactions_keyerror :
    process_social_interactions [cLoc] (fun _ => 0) cSocialPhase =
      Except.error "KeyError: social" := by
  norm_num [process_social_interactions, processPair, cSocialPhase, cLoc, cAgentSoc,
    cAgentSoc2, cAgent, cNeeds, cHabits, orderedPairs, create_social_connection,
    dictSet, needsMap_get_social, List.foldlM, List.lookup, Bind.bind, Except.bind]

/-- C2 (code bug): `SimulationEngine` defines no member `perform_action`, so as
soon as the pattern miner returns a non-empty suggestion (here: an established
matching pattern, with an exploration roll of 1/2 ≥ 0.2), the suggestion phase
evaluates `self.perform_action` and raises AttributeError instead of re-running
the agent's performAction. -/
theorem apply_suggestions_attributeerror :
    simulationEngineMembers.contains "perform_action" = false ∧
    apply_behavior_model_suggestions cSuggPhase (fun _ => 1/2) (fun _ => 1/2)
        (fun _ => 2) =
      Except.error
        "AttributeError: SimulationEngine object has no attribute perform_action" :=
  ⟨by decide, by
    norm_num [apply_behavior_model_suggestions, cSuggPhase, cStore, cPattern, cAgent,
      cNeeds, cHabits, suggest_action, agentStateDict,
      BehaviorPattern.matches_conditions, pyMaxBy, simulationEngineMembers,
      List.foldlM, List.lookup, Bind.bind, Except.bind]
    simp⟩

lemma frameRel_refl (e : String × BehaviorPattern) : frameRel e e :=
  ⟨rfl, rfl, rfl, rfl, rfl, rfl, Or.inl rfl⟩

lemma forall₂_frameRel_refl (l : PatternStore) : List.Forall₂ frameRel l l :=
  List.forall₂_same.mpr (fun e _ => frameRel_refl e)

lemma forall₂_frameRel_reset (key : String) (l : PatternStore) :
    List.Forall₂ frameRel l
      (l.map (fun e => if e.1 = key then (e.1, { e.2 with last_used := 0 }) else e)) := by
  rw [List.forall₂_map_right_iff]
  refine List.forall₂_same.mpr (fun e _ => ?_)
  by_cases hkey : e.1 = key
  · simp only [if_pos hkey]
    exact ⟨rfl, rfl, rfl, rfl, rfl, rfl, Or.inr rfl⟩
  · simp only [if_neg hkey]
    exact frameRel_refl e

/-- C10: `suggest_action` leaves every pattern's conditions, actions, success rate,
usage count and effectiveness history unchanged; the only store mutation it may
perform is resetting the selected pattern's recency counter to 0. Hence usage
counts grow only through `update_pattern_effectiveness`, never through being
suggested. -/
theorem suggest_action_frame (store : PatternStore) (ag : VirtualHuman)
    (roll tod : ℚ) :
    List.Forall₂ frameRel store (suggest_action store ag roll tod).2 := by
  simp only [suggest_action]
  split_ifs with h1
  · exact forall₂_frameRel_refl store
  · split
    · exact forall₂_frameRel_refl store
    · split
      · exact forall₂_frameRel_refl store
      · exact forall₂_frameRel_reset _ store

lemma actionTypeOfString_actionValue (a : ActionType) :
    actionTypeOfString (actionValue a) = some a := by
  cases a <;> rfl

lemma toActions_map_actionValue (l : List ActionType) :
    toActions (l.map actionValue) = Except.ok l := by
  induction l with
  | nil => rfl
  | cons a l ih => simp [toActions, actionTypeOfString_actionValue, ih]

lemma lookup_map_val_keyed {β : Type} (l : List (String × β)) (g : String → β → β)
    (k : String) :
    List.lookup k (l.map (fun e => (e.1, g e.1 e.2))) = (List.lookup k l).map (g k) := by
  induction l with
  | nil => rfl
  | cons e l ih =>
    rcases he : (k == e.1) with _ | _
    · simp [List.lookup, he, ih]
    · have hkeq : k = e.1 := by simpa using he
      subst hkeq
      simp [List.lookup]

lemma load_save_patterns (s : PatternStore) :
    ∀ (acc : PatternStore),
      (∀ k ∈ s.map Prod.fst, List.lookup k acc = none) →
      (s.map Prod.fst).Nodup →
      load_patterns (FileRead.valid (save_patterns s)) acc =
        Except.ok (acc ++ s.map reloadEntry) := by
  induction s with
  | nil =>
    intro acc _ _
    simp only [save_patterns, List.map_nil, load_patterns, List.foldlM_nil,
      List.append_nil]
    rfl
  | cons e s ih =>
    intro acc hacc hnd
    simp only [List.map_cons, List.nodup_cons] at hnd
    have hacce : List.lookup e.1 acc = none := hacc e.1 (by simp)
    have hstep : load_patterns (FileRead.valid (save_patterns (e :: s))) acc =
        load_patterns (FileRead.valid (save_patterns s)) (acc ++ [reloadEntry e]) := by
      simp only [save_patterns, List.map_cons, load_patterns, List.foldlM_cons,
        toActions_map_actionValue, Bind.bind, Except.bind, dictSet, hacce,
        Option.isSome_none, Bool.false_eq_true, if_false, reloadEntry, reloadPattern,
        Option.getD_some]
    rw [hstep]
    have hihres := ih (acc ++ [reloadEntry e])
      (fun k hk => by
        rw [lookup_append_or]
        have h1 : List.lookup k acc = none := hacc k (by simp [hk])
        have hke : k ≠ e.1 := fun hkeq => hnd.1 (hkeq ▸ hk)
        have h2 : List.lookup k [reloadEntry e] = none := by
          simp [reloadEntry, List.lookup, beq_eq_false_iff_ne.mpr hke]
        rw [h1, h2]
        rfl)
      hnd.2
    rw [hihres]
    simp

/-- C9: saving a pattern store and reloading it into an empty miner reproduces,
for every pattern id, identical conditions, actions, success rate and usage count. -/
theorem pattern_roundtrip (s : PatternStore) (id : String) (p : BehaviorPattern)
    (hnd : (s.map Prod.fst).Nodup) (h : List.lookup id s = some p) :
    ∃ t, load_patterns (FileRead.valid (save_patterns s)) [] = Except.ok t ∧
      ∃ p', List.lookup id t = some p' ∧
        p'.conditions = p.conditions ∧ p'.actions = p.actions ∧
        p'.success_rate = p.success_rate ∧ p'.usage_count = p.usage_count := by
  have hload := load_save_patterns s [] (fun k _ => rfl) hnd
  refine ⟨s.map reloadEntry, by simpa using hload, reloadPattern id p, ?_, rfl, rfl, rfl, rfl⟩
  have hmap : s.map reloadEntry = s.map (fun e => (e.1, reloadPattern e.1 e.2)) := by
    simp [reloadEntry]
  rw [hmap, lookup_map_val_keyed, h]
  rfl

/-- Witness for C9 at the concrete one-pattern store `cStore`. -/
theorem pattern_roundtrip_witness :
    ∃ t, load_patterns (FileRead.valid (save_patterns cStore)) [] = Except.ok t ∧
      ∃ p', List.lookup "pattern_0_0" t = some p' ∧
        p'.conditions = cPattern.conditions ∧ p'.actions = cPattern.actions ∧
        p'.success_rate = cPattern.success_rate ∧
        p'.usage_count = cPattern.usage_count :=
  pattern_roundtrip cStore "pattern_0_0" cPattern (by decide) rfl

lemma lookup_mutation_foldl (mroll : ℕ → ℚ) (mdelta : ℕ → String → ℚ)
    (mswap : ℕ → ℚ) (mij : ℕ → ℕ × ℕ) (id : String)
    (hfresh : ∀ s : String, id ≠ "mutation_" ++ s) :
    ∀ (cands : List (ℕ × (String × BehaviorPattern))) (acc : PatternStore × ℕ),
      List.lookup id ((cands.foldl (mutationStep mroll mdelta mswap mij) acc).1) =
        List.lookup id acc.1 := by
  intro cands
  induction cands with
  | nil => intro acc; rfl
  | cons ce cands ih =>
    intro acc
    rw [List.foldl_cons, ih]
    simp only [mutationStep]
    split_ifs with h
    · have hid : (create_pattern_mutation acc.2 ce.2.2 (mdelta ce.1) (mswap ce.1)
          (mij ce.1)).pattern_id =
          "mutation_" ++ (toString acc.2 ++ ("_" ++ ce.2.2.pattern_id)) := by
        simp only [create_pattern_mutation]
        rw [String.append_assoc, String.append_assoc]
      have hne : id ≠ (create_pattern_mutation acc.2 ce.2.2 (mdelta ce.1) (mswap ce.1)
          (mij ce.1)).pattern_id := by
        rw [hid]
        exact hfresh _
      exact lookup_dictSet_ne _ _ _ _ hne
    · rfl

/-- C8: one `evolve_patterns` call increments every surviving pattern's recency
counter by exactly 1 and removes a stored pattern exactly when the aged pattern is
ineffective (usage ≥ 10 and success rate < 0.3) or stale (recency counter > 100 and
usage < 5); the mutation phase only adds fresh `mutation_`-prefixed ids. -/
theorem evolve_patterns_recency_and_pruning (store : PatternStore) (counter : ℕ)
    (mroll : ℕ → ℚ) (mdelta : ℕ → String → ℚ) (mswap : ℕ → ℚ) (mij : ℕ → ℕ × ℕ)
    (id : String) (p : BehaviorPattern)
    (hnd : (store.map Prod.fst).Nodup)
    (h : List.lookup id store = some p)
    (hfresh : ∀ s : String, id ≠ "mutation_" ++ s) :
    List.lookup id (evolve_patterns store counter mroll mdelta mswap mij).1 =
      if removalCond { p with last_used := p.last_used + 1 } then none
      else some { p with last_used := p.last_used + 1 } := by
  simp only [evolve_patterns]
  rw [lookup_mutation_foldl mroll mdelta mswap mij id hfresh]
  have hagnd : ((store.map (fun e =>
      ((e.1 : String), { e.2 with last_used := e.2.last_used + 1 }))).map Prod.fst).Nodup := by
    rw [List.map_map]
    have : (Prod.fst ∘ fun (e : String × BehaviorPattern) =>
        (e.1, { e.2 with last_used := e.2.last_used + 1 })) = Prod.fst := by
      funext e; rfl
    rw [this]
    exact hnd
  have hl : List.lookup id (List.map (fun e =>
      ((e.1 : String), { e.2 with last_used := e.2.last_used + 1 })) store) =
      (List.lookup id store).map (fun q => { q with last_used := q.last_used + 1 }) :=
    lookup_map_val store (fun q => { q with last_used := q.last_used + 1 }) id
  rw [lookup_filter_of_nodup _ _ _ hagnd, hl, h]
  cases hr : removalCond { p with last_used := p.last_used + 1 } <;> simp [hr]

/-- Witness for C8: the ineffectiveness-pruning scenario — a pattern with
usage count 10 and success rate 0.1 is removed by a single call. -/
theorem evolve_patterns_prune_witness :
    List.lookup "p1" (evolve_patterns cPruneStore 0 (fun _ => 1) (fun _ _ => 0)
        (fun _ => 1) (fun _ => (0, 1))).1 = none := by
  have hfresh : ∀ s : String, "p1" ≠ "mutation_" ++ s := by
    intro s heq
    have hlen := congrArg String.length heq
    rw [String.length_append] at hlen
    have h2 : ("p1" : String).length = 2 := rfl
    have h9 : ("mutation_" : String).length = 9 := rfl
    rw [h2, h9] at hlen
    omega
  have h := evolve_patterns_recency_and_pruning cPruneStore 0 (fun _ => 1)
    (fun _ _ => 0) (fun _ => 1) (fun _ => (0, 1)) "p1" cPrunePattern (by decide) rfl
    hfresh
  rw [h]
  norm_num [removalCond, cPrunePattern]

end AILife
